import Mathlib

/-!
Verification of the PiFire thermal-control core against its specification.

Two components are embedded here, straight from the Python source:

* `PID` (src/pid.py): a standard-form PID controller with anti-windup and
  derivative-on-measurement.  Python floats are idealised as rationals (ℚ);
  wall-clock time is passed explicitly (`now : ℚ`) instead of reading
  `time.time()`.  A Python float division whose denominator is zero raises
  `ZeroDivisionError`; fallible operations are therefore embedded as
  `Option`-valued functions where `none` models the raised exception.

* The PWM fan ramp (src/grillplat/pifire_pwm.py, `GrillPlatform._ramp_device`
  and `GrillPlatform._stop_ramp`): the ramp frame sequence is embedded as a
  pure list computation, and the stop/cancellation handle as a small state
  record.  Python `int(x)` truncation and `round(x, 4)` banker rounding are
  embedded exactly on ℚ.
-/

/-- Python `int(x)` applied to a (rational-modelled) float: truncation toward
zero. -/
def pyInt (x : ℚ) : ℤ := if 0 ≤ x then ⌊x⌋ else ⌈x⌉

/-- Round to the nearest integer, ties to even: the rounding used by Python
`round`. -/
def roundHalfEven (x : ℚ) : ℤ :=
  if x - ⌊x⌋ < 1 / 2 then ⌊x⌋
  else if x - ⌊x⌋ > 1 / 2 then ⌊x⌋ + 1
  else if ⌊x⌋ % 2 = 0 then ⌊x⌋ else ⌊x⌋ + 1

/-- Python `round(x, 4)` on the rational idealisation of floats. -/
def pyRound4 (x : ℚ) : ℚ := (roundHalfEven (x * 10000) : ℚ) / 10000

/-- State of the `PID` class in src/pid.py: every instance attribute assigned
by `__init__`/`update`/`set_target`/`set_gains`, with floats as ℚ and the
`time.time()` timestamp `last_update` as a ℚ instant. -/
structure PID where
  kp : ℚ
  ki : ℚ
  kd : ℚ
  p : ℚ
  i : ℚ
  d : ℚ
  u : ℚ
  last_update : ℚ
  error : ℚ
  set_point : ℚ
  center : ℚ
  derv : ℚ
  inter : ℚ
  inter_max : ℚ
  last : ℚ
deriving DecidableEq

/-- `PID._calculate_gains`: `kp = -1/pb`, `ki = kp/ti`, `kd = kp*td`.
In Python `-1 / pb` with `pb == 0` (and `kp / ti` with `ti == 0`) raises
`ZeroDivisionError` before anything is stored; `none` models that raise. -/
def calculate_gains (pb ti td : ℚ) : Option (ℚ × ℚ × ℚ) :=
  if pb = 0 then none
  else
    let kp := -1 / pb
    if ti = 0 then none
    else some (kp, kp / ti, kp * td)

/-- `PID.set_target`: store the new set point, zero `error`, `inter` and
`derv`, and stamp `last_update` with the current time. -/
def PID.set_target (s : PID) (sp now : ℚ) : PID :=
  { s with set_point := sp, error := 0, inter := 0, derv := 0, last_update := now }

/-- `PID.__init__(pb, ti, td, center)` at time `now`: compute the gains
(raising on `pb = 0` or `ti = 0`, modelled by `none`), fill the remaining
fields (`last = 150`), then call `set_target(0.0)`. -/
def PID.init (pb ti td center now : ℚ) : Option PID :=
  match calculate_gains pb ti td with
  | none => none
  | some (kp, ki, kd) =>
    let s : PID :=
      { kp := kp, ki := ki, kd := kd, p := 0, i := 0, d := 0, u := 0,
        last_update := now, error := 0, set_point := 0, center := center,
        derv := 0, inter := 0, inter_max := |center / ki|, last := 150 }
    some (s.set_target 0 now)

/-- `PID.set_gains`: recompute the gains (raising on `pb = 0` or `ti = 0`)
and refresh `inter_max = |center / ki|`. -/
def PID.set_gains (s : PID) (pb ti td : ℚ) : Option PID :=
  match calculate_gains pb ti td with
  | none => none
  | some (kp, ki, kd) =>
    some { s with kp := kp, ki := ki, kd := kd, inter_max := |s.center / ki| }

/-- `PID.get_k`: the `(kp, ki, kd)` accessor. -/
def PID.get_k (s : PID) : ℚ × ℚ × ℚ := (s.kp, s.ki, s.kd)

/-- `PID.update(current)` called at time `now`.  Mirrors src/pid.py line by
line: proportional term, integral accumulation with clamping, then the
derivative `(current - last) / dt`.  When `dt = 0` the Python division
`(current - self.last) / dt` raises `ZeroDivisionError`, modelled by `none`
(the integral-side assignments before the raise never become observable
through a returned value). -/
def PID.update (s : PID) (current now : ℚ) : Option (PID × ℚ) :=
  let error := current - s.set_point
  let p := s.kp * error + s.center
  let dt := now - s.last_update
  let inter1 := s.inter + error * dt
  let inter2 := max inter1 (-s.inter_max)
  let inter3 := min inter2 s.inter_max
  let i := s.ki * inter3
  if dt = 0 then none
  else
    let derv := (current - s.last) / dt
    let d := s.kd * derv
    let u := p + i + d
    some ({ s with
            p := p,
            i := i,
            d := d,
            u := u,
            error := error,
            last := current,
            last_update := now,
            derv := derv,
            inter := inter3 }, u)

/-- A sequence of `update` calls: each list entry is a `(current, now)`
pair; `none` if any call raises. -/
def PID.run : PID → List (ℚ × ℚ) → Option PID
  | s, [] => some s
  | s, (c, t) :: rest =>
    match s.update c t with
    | none => none
    | some r => PID.run r.1 rest

/-- Claim C6: after `set_gains(pb, ti, td)` or construction with those
parameters (`pb ≠ 0`, `ti ≠ 0`), `get_k()` returns exactly
`(-1/pb, (-1/pb)/ti, (-1/pb)*td)`; in particular `kp < 0` whenever
`pb > 0`. -/
theorem claim_C6_gain_formula (pb ti td : ℚ) (hpb : pb ≠ 0) (hti : ti ≠ 0) :
    (∀ s : PID, (s.set_gains pb ti td).map PID.get_k
        = some (-1 / pb, -1 / pb / ti, -1 / pb * td))
    ∧ (∀ center now : ℚ, (PID.init pb ti td center now).map PID.get_k
        = some (-1 / pb, -1 / pb / ti, -1 / pb * td))
    ∧ (0 < pb → -1 / pb < 0) := by
  refine ⟨?_, ?_, ?_⟩
  · intro s
    simp [PID.set_gains, calculate_gains, hpb, hti, PID.get_k]
  · intro center now
    simp [PID.init, calculate_gains, hpb, hti, PID.get_k, PID.set_target]
  · intro hpos
    exact div_neg_of_neg_of_pos (by norm_num) hpos

/-- Concrete instance of claim C6 at `pb = 60`, `ti = 180`, `td = 45`. -/
theorem claim_C6_gain_formula_witness :
    (60 : ℚ) ≠ 0 ∧ (180 : ℚ) ≠ 0 ∧
    ((∀ s : PID, (s.set_gains 60 180 45).map PID.get_k
        = some (-1 / 60, -1 / 60 / 180, -1 / 60 * 45))
      ∧ (∀ center now : ℚ, (PID.init 60 180 45 center now).map PID.get_k
        = some (-1 / 60, -1 / 60 / 180, -1 / 60 * 45))
      ∧ ((0 : ℚ) < 60 → -1 / 60 < (0 : ℚ))) :=
  ⟨by norm_num, by norm_num,
    claim_C6_gain_formula 60 180 45 (by norm_num) (by norm_num)⟩

/-- Claim C7: `set_gains` or construction with `pb = 0` or `ti = 0` fails at
the point the gains are computed (the Python division raises, modelled by
`none`): no state with degenerate gains is ever produced or returned. -/
theorem claim_C7_zero_tuning_fails (pb ti td center now : ℚ) (s : PID)
    (h : pb = 0 ∨ ti = 0) :
    calculate_gains pb ti td = none
    ∧ PID.init pb ti td center now = none
    ∧ s.set_gains pb ti td = none := by
  rcases h with h | h
  · simp [calculate_gains, PID.init, PID.set_gains, h]
  · by_cases hpb : pb = 0 <;>
      simp [calculate_gains, PID.init, PID.set_gains, h, hpb]

/-- Concrete instance of claim C7 at `pb = 0`. -/
theorem claim_C7_zero_tuning_fails_witness :
    ((0 : ℚ) = 0 ∨ (180 : ℚ) = 0) ∧
    (calculate_gains 0 180 45 = none
      ∧ PID.init 0 180 45 (1/2) 0 = none
      ∧ PID.set_gains
          { kp := 0, ki := 0, kd := 0, p := 0, i := 0, d := 0, u := 0,
            last_update := 0, error := 0, set_point := 0, center := 0,
            derv := 0, inter := 0, inter_max := 0, last := 150 } 0 180 45 = none) :=
  ⟨Or.inl rfl,
    claim_C7_zero_tuning_fails 0 180 45 (1/2) 0
      { kp := 0, ki := 0, kd := 0, p := 0, i := 0, d := 0, u := 0,
        last_update := 0, error := 0, set_point := 0, center := 0,
        derv := 0, inter := 0, inter_max := 0, last := 150 }
      (Or.inl rfl)⟩

/-- Claim C8: `set_target(x)` at time `now` stores `x` as the set point,
zeroes the stored error, integral accumulator and derivative, and stamps
`last_update` with `now`, whatever the prior state. -/
theorem claim_C8_set_target_resets (s : PID) (x now : ℚ) :
    (s.set_target x now).set_point = x
    ∧ (s.set_target x now).error = 0
    ∧ (s.set_target x now).inter = 0
    ∧ (s.set_target x now).derv = 0
    ∧ (s.set_target x now).last_update = now :=
  ⟨rfl, rfl, rfl, rfl, rfl⟩

/-- Claim C1: with `dt = now - last_update > 0`, `update(current)` returns
`kp*(current - set_point) + center + ki*inter2 + kd*((current - last)/dt)`
where `inter2` is the accumulated integral clamped to
`[-inter_max, inter_max]`, and stores `current` as the new previous
measurement and the call time as the new `last_update`. -/
theorem claim_C1_update_formula (s : PID) (current now : ℚ)
    (h : 0 < now - s.last_update) :
    (s.update current now).map (fun r => (r.2, r.1.last, r.1.last_update))
      = some (s.kp * (current - s.set_point) + s.center
          + s.ki * (min (max (s.inter + (current - s.set_point) * (now - s.last_update))
              (-s.inter_max)) s.inter_max)
          + s.kd * ((current - s.last) / (now - s.last_update)),
        current, now) := by
  have hne : now - s.last_update ≠ 0 := ne_of_gt h
  simp [PID.update, hne]

/-- A concrete controller state used to instantiate claim C1. -/
def pidC1 : PID :=
  { kp := -1, ki := -1/2, kd := -3, p := 0, i := 0, d := 0, u := 0,
    last_update := 1, error := 0, set_point := 0, center := 1/2,
    derv := 0, inter := 0, inter_max := 1, last := 150 }

/-- Concrete instance of claim C1: an update at `dt = 1`. -/
theorem claim_C1_update_formula_witness :
    (0 : ℚ) < 2 - pidC1.last_update ∧
    (pidC1.update 151 2).map (fun r => (r.2, r.1.last, r.1.last_update))
      = some (pidC1.kp * (151 - pidC1.set_point) + pidC1.center
          + pidC1.ki * (min (max (pidC1.inter + (151 - pidC1.set_point) * (2 - pidC1.last_update))
              (-pidC1.inter_max)) pidC1.inter_max)
          + pidC1.kd * ((151 - pidC1.last) / (2 - pidC1.last_update)),
        151, 2) :=
  ⟨by norm_num [pidC1], claim_C1_update_formula pidC1 151 2 (by norm_num [pidC1])⟩

/-- A concrete controller state whose `last_update` equals the time of the
next `update` call, so that `dt = 0` on that call. -/
def pidC2 : PID :=
  { kp := -1, ki := -1/2, kd := -3, p := 0, i := 0, d := 0, u := 0,
    last_update := 5, error := 0, set_point := 0, center := 1/2,
    derv := 0, inter := 0, inter_max := 1, last := 150 }

/-- Claim C2 is violated by the code: `update` with `dt = 0` reaches the
Python division `(current - self.last) / dt` unguarded and raises
`ZeroDivisionError` (modelled by `none`); the derivative/integral
contributions are not skipped and no control output is returned. -/
theorem claim_C2_dt_zero_raises : pidC2.update 100 5 = none := by
  norm_num [PID.update, pidC2]

/-- Claim C10: construction leaves the previous-measurement field at the
constant `150` (the `set_target(0.0)` performed by `__init__` does not touch
it), so the first `update(current)` after construction computes its
derivative term as `kd * (current - 150) / dt`. -/
theorem claim_C10_initial_last (pb ti td center t0 current now : ℚ)
    (hpb : pb ≠ 0) (hti : ti ≠ 0) (hdt : 0 < now - t0) :
    (PID.init pb ti td center t0).map (fun s0 => s0.last) = some 150
    ∧ (PID.init pb ti td center t0).bind
        (fun s0 => (s0.update current now).map (fun r => r.1.d))
      = some (-1 / pb * td * ((current - 150) / (now - t0))) := by
  have hne : now - t0 ≠ 0 := ne_of_gt hdt
  constructor
  · simp [PID.init, calculate_gains, hpb, hti, PID.set_target]
  · simp [PID.init, calculate_gains, hpb, hti, PID.set_target, PID.update, hne]

/-- Concrete instance of claim C10 with `pb = 60`, `ti = 180`, `td = 45`,
first update one second after construction. -/
theorem claim_C10_initial_last_witness :
    (60 : ℚ) ≠ 0 ∧ (180 : ℚ) ≠ 0 ∧ (0 : ℚ) < 1 - 0 ∧
    ((PID.init 60 180 45 (1/2) 0).map (fun s0 => s0.last) = some 150
      ∧ (PID.init 60 180 45 (1/2) 0).bind
          (fun s0 => (s0.update 100 1).map (fun r => r.1.d))
        = some (-1 / 60 * 45 * ((100 - 150) / (1 - 0)))) :=
  ⟨by norm_num, by norm_num, by norm_num,
    claim_C10_initial_last 60 180 45 (1/2) 0 100 1
      (by norm_num) (by norm_num) (by norm_num)⟩

/-- One successful `update` leaves `inter_max` unchanged and the integral
accumulator clamped to `[-inter_max, inter_max]`, provided `inter_max` is
nonnegative. -/
theorem PID.update_inter_clamped {s : PID} {c t : ℚ} {r : PID × ℚ}
    (hm : 0 ≤ s.inter_max) (h : s.update c t = some r) :
    r.1.inter_max = s.inter_max
    ∧ -r.1.inter_max ≤ r.1.inter ∧ r.1.inter ≤ r.1.inter_max := by
  by_cases hdt : t - s.last_update = 0
  · simp [PID.update, hdt] at h
  · simp only [PID.update, if_neg hdt, Option.some.injEq] at h
    subst h
    refine ⟨rfl, ?_, ?_⟩
    · exact le_min (le_max_right _ _) (neg_le_self hm)
    · exact min_le_right _ _

/-- Any successful sequence of `update` calls preserves `inter_max` and the
clamping invariant on the integral accumulator. -/
theorem PID.run_inter_clamped {l : List (ℚ × ℚ)} {s s' : PID}
    (hm : 0 ≤ s.inter_max ∧ -s.inter_max ≤ s.inter ∧ s.inter ≤ s.inter_max)
    (h : PID.run s l = some s') :
    s'.inter_max = s.inter_max
    ∧ -s'.inter_max ≤ s'.inter ∧ s'.inter ≤ s'.inter_max := by
  induction l generalizing s with
  | nil =>
    simp only [PID.run, Option.some.injEq] at h
    subst h
    exact ⟨rfl, hm.2.1, hm.2.2⟩
  | cons q rest ih =>
    obtain ⟨c, t⟩ := q
    simp only [PID.run] at h
    cases hu : s.update c t with
    | none => rw [hu] at h; exact absurd h (by simp)
    | some r =>
      rw [hu] at h
      obtain ⟨hmax, hlo, hhi⟩ := PID.update_inter_clamped hm.1 hu
      obtain ⟨hmax', hlo', hhi'⟩ := ih (s := r.1) ⟨hmax ▸ hm.1, hlo, hhi⟩ h
      exact ⟨hmax'.trans hmax, hlo', hhi'⟩

/-- Claim C5: starting from any constructed controller with fixed gains,
after any successful sequence of `update` calls the integral accumulator
lies within `[-inter_max, inter_max]`, where `inter_max = |center / ki|`
and `ki = (-1/pb)/ti`. -/
theorem claim_C5_anti_windup (pb ti td center t0 : ℚ) (l : List (ℚ × ℚ))
    (s0 s : PID)
    (h0 : PID.init pb ti td center t0 = some s0)
    (h : PID.run s0 l = some s) :
    -s.inter_max ≤ s.inter ∧ s.inter ≤ s.inter_max
    ∧ s.inter_max = |center / (-1 / pb / ti)| := by
  by_cases hpb : pb = 0
  · simp [PID.init, calculate_gains, hpb] at h0
  · by_cases hti : ti = 0
    · simp [PID.init, calculate_gains, hpb, hti] at h0
    · simp only [PID.init, calculate_gains, if_neg hpb, if_neg hti,
        PID.set_target, Option.some.injEq] at h0
      subst h0
      obtain ⟨hmax, hlo, hhi⟩ :=
        PID.run_inter_clamped
          ⟨abs_nonneg _, by simp, by simp⟩ h
      exact ⟨hlo, hhi, by simpa using hmax⟩

/-- The controller produced by `PID.init 1 1 0 0 0`. -/
def pidC5 : PID :=
  { kp := -1, ki := -1, kd := 0, p := 0, i := 0, d := 0, u := 0,
    last_update := 0, error := 0, set_point := 0, center := 0,
    derv := 0, inter := 0, inter_max := 0, last := 150 }

/-- The state of `pidC5` after one `update(150)` call at time 1. -/
def pidC5s : PID :=
  { kp := -1, ki := -1, kd := 0, p := -150, i := 0, d := 0, u := -150,
    last_update := 1, error := 150, set_point := 0, center := 0,
    derv := 0, inter := 0, inter_max := 0, last := 150 }

/-- Concrete instance of claim C5: one update call on a freshly constructed
controller. -/
theorem claim_C5_anti_windup_witness :
    PID.init 1 1 0 0 0 = some pidC5
    ∧ PID.run pidC5 [(150, 1)] = some pidC5s
    ∧ (-pidC5s.inter_max ≤ pidC5s.inter ∧ pidC5s.inter ≤ pidC5s.inter_max
        ∧ pidC5s.inter_max = |0 / (-1 / 1 / 1)|) := by
  have h0 : PID.init 1 1 0 0 0 = some pidC5 := by
    norm_num [PID.init, calculate_gains, PID.set_target, pidC5]
  have hr : PID.run pidC5 [(150, 1)] = some pidC5s := by
    norm_num [PID.run, PID.update, pidC5, pidC5s]
  exact ⟨h0, hr, claim_C5_anti_windup 1 1 0 0 0 [(150, 1)] pidC5 pidC5s h0 hr⟩

/-- The frame sequence computed by `GrillPlatform._ramp_device` in
src/grillplat/pifire_pwm.py: one `(value, delay)` pair per index of Python
`range(int(fps*on_time*(min_duty_cycle/max_duty_cycle)), int(fps*on_time))`
with `value = 1 - i*(duty_cycle/fps)/on_time` and `duty_cycle =
max_duty_cycle/100`, followed by the appended final pinned frame
`(1.0 - duty_cycle, 1/fps)`. -/
def ramp_sequence (on_time min_duty_cycle max_duty_cycle fps : ℚ) : List (ℚ × ℚ) :=
  let duty_cycle := max_duty_cycle / 100
  let lo := pyInt (fps * on_time * (min_duty_cycle / max_duty_cycle))
  let hi := pyInt (fps * on_time)
  ((List.range (hi - lo).toNat).map fun k : ℕ =>
      (1 - ((lo + (k : ℤ) : ℤ) : ℚ) * (duty_cycle / fps) / on_time, 1 / fps))
    ++ [(1 - duty_cycle, 1 / fps)]

/-- The per-frame fan-speed percentage emitted by the `_ramp_device` loop:
`new_duty_cycle = round(value, 4) * 100`, inverted to
`fan_speed_percent = 100 - new_duty_cycle`. -/
def frame_speed_percent (value : ℚ) : ℚ := 100 - pyRound4 value * 100

/-- The fan-speed percentages pushed to `set_duty_cycle` by `_ramp_device`,
in emission order, one per frame of `ramp_sequence`. -/
def ramp_speeds (on_time min_duty_cycle max_duty_cycle fps : ℚ) : List ℚ :=
  (ramp_sequence on_time min_duty_cycle max_duty_cycle fps).map
    (fun fr => frame_speed_percent fr.1)

/-- The slice of `GrillPlatform` state that `_stop_ramp` reads and writes:
the `_ramp_thread` attribute, `some id` for a live `GPIOThread` handle and
`none` for the Python `None`. -/
structure RampPlatform where
  ramp_thread : Option Nat
deriving DecidableEq

/-- `GrillPlatform._stop_ramp`: if `self._ramp_thread` is truthy, call its
`stop()` and clear the attribute; otherwise fall through.  The second
component counts the `stop()` calls issued to the thread handle, the
observable side effect of this method. -/
def stop_ramp (g : RampPlatform) : RampPlatform × ℕ :=
  match g.ramp_thread with
  | some _ => ({ ramp_thread := none }, 1)
  | none => (g, 0)

/-- Claim C9: `_stop_ramp` with no active ramp is a no-op rather than an
error, the first call always leaves the thread handle cleared, and a second
consecutive call changes nothing and issues no further `stop()`. -/
theorem claim_C9_stop_ramp_idempotent (g : RampPlatform) :
    (g.ramp_thread = none → stop_ramp g = (g, 0))
    ∧ (stop_ramp g).1.ramp_thread = none
    ∧ stop_ramp (stop_ramp g).1 = ((stop_ramp g).1, 0) := by
  refine ⟨?_, ?_, ?_⟩
  · intro h
    simp [stop_ramp, h]
  · cases hg : g.ramp_thread <;> simp [stop_ramp, hg]
  · cases hg : g.ramp_thread <;> simp [stop_ramp, hg]

/-- Concrete instance of claim C9: stopping a platform with a live ramp
thread, twice. -/
theorem claim_C9_stop_ramp_idempotent_witness :
    (((⟨some 0⟩ : RampPlatform).ramp_thread = none
        → stop_ramp ⟨some 0⟩ = (⟨some 0⟩, 0))
      ∧ (stop_ramp (⟨some 0⟩ : RampPlatform)).1.ramp_thread = none
      ∧ stop_ramp (stop_ramp (⟨some 0⟩ : RampPlatform)).1
          = ((stop_ramp (⟨some 0⟩ : RampPlatform)).1, 0)) :=
  claim_C9_stop_ramp_idempotent ⟨some 0⟩

/-- Claim C3 fails on the code: at `on_time = 5`, `min = 20`, `max = 100`,
`fps = 25` the final frame is pinned to `1 - 100/100 = 0` and its converted
fan-speed percentage `100 - value*100` is `100` (the configured maximum),
not `100 - max_percent = 0` as claimed. -/
theorem claim_C3_counterexample :
    (ramp_sequence 5 20 100 25).getLast? = some (1 - 100 / 100, 1 / 25)
    ∧ (ramp_speeds 5 20 100 25).getLast? = some 100
    ∧ 100 - (1 - (100 : ℚ) / 100) * 100 = 100
    ∧ (100 : ℚ) ≠ 100 - 100 := by
  refine ⟨?_, ?_, by norm_num, by norm_num⟩
  · simp [ramp_sequence, List.getLast?_concat]
  · simp only [ramp_speeds, ramp_sequence, List.map_append, List.map_cons,
      List.map_nil, List.getLast?_concat, Option.some.injEq]
    norm_num [frame_speed_percent, pyRound4, roundHalfEven]

/-- Claim C3 (amended): the final frame is pinned to `1 - duty` with
`duty = max_duty_cycle/100`, so the sequence ends exactly at the configured
maximum: under the conversion `speed_percent = 100 - value*100` the final
frame's fan-speed percentage is exactly `max_percent` (here with the
rounding to four decimal places exact on the pinned value). -/
theorem claim_C3_final_frame_amended (on_time mn mx fps : ℚ)
    (_h1 : 0 < mn) (_h2 : mn ≤ mx) (_h3 : mx ≤ 100) (_h4 : 0 < on_time)
    (_h5 : 0 < fps) (hr : pyRound4 (1 - mx / 100) = 1 - mx / 100) :
    (ramp_sequence on_time mn mx fps).getLast? = some (1 - mx / 100, 1 / fps)
    ∧ (ramp_speeds on_time mn mx fps).getLast? = some mx
    ∧ 100 - (1 - mx / 100) * 100 = mx := by
  refine ⟨?_, ?_, by ring⟩
  · simp [ramp_sequence, List.getLast?_concat]
  · simp only [ramp_speeds, ramp_sequence, List.map_append, List.map_cons,
      List.map_nil, List.getLast?_concat, Option.some.injEq,
      frame_speed_percent, hr]
    ring

/-- Concrete instance of the amended claim C3 at
`(on_time, min, max, fps) = (5, 20, 100, 25)`. -/
theorem claim_C3_final_frame_amended_witness :
    ((0 : ℚ) < 20 ∧ (20 : ℚ) ≤ 100 ∧ (100 : ℚ) ≤ 100 ∧ (0 : ℚ) < 5 ∧ (0 : ℚ) < 25
      ∧ pyRound4 (1 - 100 / 100) = 1 - 100 / 100)
    ∧ ((ramp_sequence 5 20 100 25).getLast? = some (1 - 100 / 100, 1 / 25)
      ∧ (ramp_speeds 5 20 100 25).getLast? = some 100
      ∧ 100 - (1 - (100 : ℚ) / 100) * 100 = 100) := by
  have hr : pyRound4 (1 - (100 : ℚ) / 100) = 1 - (100 : ℚ) / 100 := by
    norm_num [pyRound4, roundHalfEven]
  exact ⟨⟨by norm_num, by norm_num, by norm_num, by norm_num, by norm_num, hr⟩,
    claim_C3_final_frame_amended 5 20 100 25 (by norm_num) (by norm_num)
      (by norm_num) (by norm_num) (by norm_num) hr⟩

/-- Claim C4: for `on_time > 0`, `0 < min_duty_cycle ≤ max_duty_cycle ≤ 100`
and `fps > 0`, the ramp sequence has exactly
`int(fps*on_time) - int(fps*on_time*min/max) + 1` frames: one frame per
index `i` from `int(fps*on_time*(min/max))` up to but excluding
`int(fps*on_time)` with value `1 - i*(duty/fps)/on_time` and
`duty = max_duty_cycle/100`, plus the final pinned frame; every frame
carries the fixed delay `1/fps`. -/
theorem claim_C4_frame_count (on_time mn mx fps : ℚ)
    (h1 : 0 < on_time) (h2 : 0 < mn) (h3 : mn ≤ mx) (_h4 : mx ≤ 100)
    (h5 : 0 < fps) :
    ((ramp_sequence on_time mn mx fps).length : ℤ)
      = pyInt (fps * on_time) - pyInt (fps * on_time * (mn / mx)) + 1
    ∧ (∀ k : ℕ, (k : ℤ) < pyInt (fps * on_time) - pyInt (fps * on_time * (mn / mx)) →
        (ramp_sequence on_time mn mx fps)[k]?
          = some (1 - ((pyInt (fps * on_time * (mn / mx)) + (k : ℤ) : ℤ) : ℚ)
              * ((mx / 100) / fps) / on_time, 1 / fps))
    ∧ (∀ fr ∈ ramp_sequence on_time mn mx fps, fr.2 = 1 / fps) := by
  have hmx : 0 < mx := lt_of_lt_of_le h2 h3
  have hfo : 0 < fps * on_time := mul_pos h5 h1
  have hr1 : mn / mx ≤ 1 := (div_le_one hmx).mpr h3
  have hr0 : 0 < mn / mx := div_pos h2 hmx
  have ha0 : 0 < fps * on_time * (mn / mx) := mul_pos hfo hr0
  have hale : fps * on_time * (mn / mx) ≤ fps * on_time := by
    calc fps * on_time * (mn / mx) ≤ fps * on_time * 1 :=
          mul_le_mul_of_nonneg_left hr1 (le_of_lt hfo)
      _ = fps * on_time := mul_one _
  have hlo_def : pyInt (fps * on_time * (mn / mx)) = ⌊fps * on_time * (mn / mx)⌋ := by
    simp [pyInt, le_of_lt ha0]
  have hhi_def : pyInt (fps * on_time) = ⌊fps * on_time⌋ := by
    simp [pyInt, le_of_lt hfo]
  have hle : pyInt (fps * on_time * (mn / mx)) ≤ pyInt (fps * on_time) := by
    rw [hlo_def, hhi_def]
    exact Int.floor_mono hale
  refine ⟨?_, ?_, ?_⟩
  · have hlen : (ramp_sequence on_time mn mx fps).length
        = (pyInt (fps * on_time) - pyInt (fps * on_time * (mn / mx))).toNat + 1 := by
      simp [ramp_sequence]
    rw [hlen]
    push_cast [Int.toNat_of_nonneg (sub_nonneg.mpr hle)]
    ring
  · intro k hk
    have hk' : k < (pyInt (fps * on_time) - pyInt (fps * on_time * (mn / mx))).toNat :=
      Int.lt_toNat.mpr (by omega)
    simp only [ramp_sequence]
    rw [List.getElem?_append_left (by simpa using hk'), List.getElem?_map,
      List.getElem?_range hk']
    rfl
  · intro fr hfr
    simp only [ramp_sequence, List.mem_append, List.mem_map, List.mem_range,
      List.mem_singleton] at hfr
    rcases hfr with ⟨a, _, rfl⟩ | rfl <;> rfl

/-- Concrete instance of claim C4 at
`(on_time, min, max, fps) = (5, 20, 100, 25)`. -/
theorem claim_C4_frame_count_witness :
    ((0 : ℚ) < 5 ∧ (0 : ℚ) < 20 ∧ (20 : ℚ) ≤ 100 ∧ (100 : ℚ) ≤ 100 ∧ (0 : ℚ) < 25)
    ∧ (((ramp_sequence 5 20 100 25).length : ℤ)
        = pyInt (25 * 5) - pyInt (25 * 5 * (20 / 100)) + 1
      ∧ (∀ k : ℕ, (k : ℤ) < pyInt (25 * 5) - pyInt (25 * 5 * (20 / 100)) →
          (ramp_sequence 5 20 100 25)[k]?
            = some (1 - ((pyInt (25 * 5 * (20 / 100)) + (k : ℤ) : ℤ) : ℚ)
                * ((100 / 100) / 25) / 5, 1 / 25))
      ∧ (∀ fr ∈ ramp_sequence 5 20 100 25, fr.2 = 1 / 25)) :=
  ⟨⟨by norm_num, by norm_num, by norm_num, by norm_num, by norm_num⟩,
    claim_C4_frame_count 5 20 100 25 (by norm_num) (by norm_num) (by norm_num)
      (by norm_num) (by norm_num)⟩
